import Mathlib

/-!
Verification of the neds_sdr scanner core against its specification.

This file gives a shallow embedding, in Lean 4, of the signal-processing and
protocol core of the `neds_sdr` repository, and proves (or refutes) the
spec claims about it.  Python floats are modelled by real numbers, numpy
arrays by lists of reals, complex samples by `Complex`, byte strings by
lists of naturals, and object mutation by explicit state passing: a method
that mutates `self` is embedded as a function returning the new object
state together with its return value and its observable effects (sink
writes, event emissions).

Embedded source files:
  * `neds_sdr/core/rtl_tcp_client.py`  (command framing, `read_iq`)
  * `neds_sdr/core/squelch.py`         (`SquelchGate`)
  * `neds_sdr/core/tone_detector.py`   (`ToneDetector`)
  * `neds_sdr/dsp/fm_demod.py`         (`fm_demodulate`)
  * `neds_sdr/core/channel.py`         (`Channel.process_samples`)
  * `neds_sdr/core/receiver.py`        (`SDRReceiver._rx_loop` fan-out)
-/

namespace NedsSDR

open Real

/-- Python `int()` applied to a float: truncation toward zero. -/
noncomputable def pyInt (x : ℝ) : ℤ := if 0 ≤ x then ⌊x⌋ else -⌊-x⌋

/-! ## rtl_tcp_client.py : command framing

`RTL_TCP_Client._send_cmd` sends `struct.pack(">BI", cmd_id, int(value))`:
one opcode byte followed by the 4-byte big-endian unsigned encoding of the
argument.  `struct.pack` raises `struct.error` when the opcode does not fit
in a byte or the value does not fit in 32 bits; that failure is modelled by
`none`. -/

/-- Big-endian 4-byte serialization of a 32-bit unsigned value (the `I`
field of `struct.pack(">BI", ...)`) . -/
def beBytes4 (v : ℕ) : List ℕ :=
  [v / 2 ^ 24 % 256, v / 2 ^ 16 % 256, v / 2 ^ 8 % 256, v % 256]

/-- The 5-byte command frame written by `RTL_TCP_Client._send_cmd`:
`struct.pack(">BI", cmd_id, value)`.  Out-of-range fields raise
`struct.error` in Python, modelled as `none`. -/
def encode_cmd (cmd_id value : ℕ) : Option (List ℕ) :=
  if cmd_id < 2 ^ 8 ∧ value < 2 ^ 32 then some (cmd_id :: beBytes4 value) else none

/-! ## squelch.py : SquelchGate -/

/-- State of a `SquelchGate` object: the constructor arguments
`threshold_db` and `hysteresis_db` (defaults `-45.0` and `2.0`) and the
mutable flag `state_open` (initially `False`). -/
structure SquelchGate where
  threshold_db : ℝ
  hysteresis_db : ℝ
  state_open : Bool

/-- `SquelchGate.measure_power`: `-120.0` dBFS for an empty block, else
`20 * log10(sqrt(mean(samples ** 2)) + 1e-12)`. -/
noncomputable def measure_power (samples : List ℝ) : ℝ :=
  if samples.length = 0 then -120
  else 20 * Real.logb 10 (Real.sqrt ((samples.map (fun x => x ^ 2)).sum / samples.length) + 1e-12)

/-- `SquelchGate.update`: evaluates the block power and updates
`state_open`; returns the mutated gate together with the returned
`self.state_open`. -/
noncomputable def SquelchGate.update (g : SquelchGate) (samples : List ℝ) :
    SquelchGate × Bool :=
  let power_db := measure_power samples
  if g.state_open = false ∧ power_db > g.threshold_db then
    ({ g with state_open := true }, true)
  else if g.state_open = true ∧ power_db < g.threshold_db - g.hysteresis_db then
    ({ g with state_open := false }, false)
  else
    (g, g.state_open)

/-! ## fm_demod.py : fm_demodulate

`fm_demodulate(iq, prev_phase)` receives, on the live path
(`SDRReceiver._rx_loop` → `Channel.process_samples`), a one-dimensional
`float32` array of interleaved I/Q values, so the `iq.dtype != np.complex64`
branch always converts it to complex pairs `i + 1j * q`.  The numpy
pipeline `np.diff(np.unwrap(phase))` equals the pointwise map of
`unwrapDiff` over successive phase differences: `np.unwrap` adds a running
correction whose increment at step `i` is exactly `ddmod(dphase i) - dphase i`
when `|dphase i| >= pi` (with the `-pi` boundary fixed to `pi` for positive
differences) and `0` otherwise, so differencing recovers the corrected
step. -/

/-- numpy `np.clip(x, lo, hi)`. -/
noncomputable def npClip (x lo hi : ℝ) : ℝ := min (max x lo) hi

/-- The value `mod(d + pi, 2*pi) - pi` computed inside `np.unwrap`
(numpy float `mod` takes the sign of the divisor, so the result lies in
the interval co-`[-pi, pi)`). -/
noncomputable def ddmod (d : ℝ) : ℝ := (d + π) - 2 * π * ⌊(d + π) / (2 * π)⌋ - π

/-- Successive difference of `np.unwrap` output: the raw difference when
its magnitude is below the discontinuity threshold `pi`, else the wrapped
difference with numpy's sign fix at the `-pi` boundary. -/
noncomputable def unwrapDiff (d : ℝ) : ℝ :=
  if |d| < π then d
  else if ddmod d = -π ∧ 0 < d then π else ddmod d

/-- Adjacent differences, numpy `np.diff`. -/
def diffs : List ℝ → List ℝ
  | [] => []
  | [_] => []
  | x :: y :: t => (y - x) :: diffs (y :: t)

/-- The conversion `i = iq[::2]; q = iq[1::2]; iq = i + 1j * q` of an
interleaved float array to complex samples (block sizes are even on the
live path; a trailing odd element would make numpy's broadcast fail). -/
noncomputable def deinterleave : List ℝ → List ℂ
  | i :: q :: t => ((i : ℂ) + Complex.I * (q : ℂ)) :: deinterleave t
  | _ => []

/-- `fm_demodulate(iq, prev_phase)` from `neds_sdr/dsp/fm_demod.py`:
blocks of fewer than 4 values return an empty result and the carried
phase unchanged; otherwise the interleaved input is converted to complex
samples, `phase = np.angle(iq)`, `dphase = np.diff(np.unwrap(phase))`,
and the result is `np.clip(dphase, -pi, pi)` together with `phase[-1]`
(the phase list is nonempty because the input has at least 4 values,
hence at least 2 complex samples). -/
noncomputable def fm_demodulate (iq : List ℝ) (prev_phase : ℝ) : List ℝ × ℝ :=
  if iq.length < 4 then ([], prev_phase)
  else
    let phase := (deinterleave iq).map Complex.arg
    let demod := (diffs phase).map (fun d => npClip (unwrapDiff d) (-π) π)
    (demod, phase.getLastD 0)

/-! ## tone_detector.py : ToneDetector -/

/-- State of a `ToneDetector` object: constructor arguments `tone_type`
("PL", "DPL" or `None`), `tone_value`, `sample_rate` (default 48000) and
the fixed detection threshold `self._threshold = 0.01`.  None of the
fields is ever mutated: the detector keeps no sample buffer between
calls. -/
structure ToneDetector where
  tone_type : Option String
  tone_value : Option ℝ
  sample_rate : ℕ
  threshold : ℝ

/-- One iteration of the Goertzel loop in `detect_ctcss`:
`q0 = coeff * q1 - q2 + sample; q2, q1 = q1, q0`, on the pair
`(q1, q2)`. -/
noncomputable def goertzelStep (coeff : ℝ) (q : ℝ × ℝ) (sample : ℝ) : ℝ × ℝ :=
  (coeff * q.1 - q.2 + sample, q.1)

/-- `ToneDetector.detect_ctcss`: returns `False` for an empty block or an
unset `tone_value`; computes `window = int(self.sample_rate * 0.5)` and
returns `False` when the block is shorter than the window; otherwise runs
the Goertzel recurrence over `buf = audio[-window:]` with
`coeff = 2 * cos((2 * pi / window) * k)`, `k = int(0.5 + window *
tone_value / sample_rate)`, and reports whether
`sqrt(q1 ** 2 + q2 ** 2 - q1 * q2 * coeff)` exceeds the threshold.
(The source also computes `sine = np.sin(w)` but never uses it.) -/
noncomputable def ToneDetector.detect_ctcss (t : ToneDetector) (audio : List ℝ) : Prop :=
  if audio.length = 0 then False
  else
    match t.tone_value with
    | none => False
    | some tv =>
      let window : ℤ := pyInt ((t.sample_rate : ℝ) * 0.5)
      if (audio.length : ℤ) < window then False
      else
        let buf := audio.drop (audio.length - window.toNat)
        let k : ℤ := pyInt (0.5 + ((window : ℝ) * tv / (t.sample_rate : ℝ)))
        let w : ℝ := (2 * π / (window : ℝ)) * (k : ℝ)
        let coeff := 2 * Real.cos w
        let qf := buf.foldl (goertzelStep coeff) (0, 0)
        Real.sqrt (qf.1 ^ 2 + qf.2 ^ 2 - qf.1 * qf.2 * coeff) > t.threshold

/-- `ToneDetector.detect_dcs`: explicit stub, always `True`. -/
def ToneDetector.detect_dcs (_t : ToneDetector) (_audio : List ℝ) : Prop := True

/-- `ToneDetector.match` (renamed: `match` is a Lean keyword): dispatch on
`tone_type`; anything other than "PL" or "DPL" passes. -/
noncomputable def ToneDetector.toneMatch (t : ToneDetector) (audio : List ℝ) : Prop :=
  if t.tone_type = some "PL" then t.detect_ctcss audio
  else if t.tone_type = some "DPL" then t.detect_dcs audio
  else True

/-! ## channel.py : Channel.process_samples

A `Channel` object holds a `SquelchGate`, a `ToneDetector`, an
`AudioOutput`, the carried demodulation phase `prev_phase` and the flag
`running` (set by `start`/`stop` and read by no method of the class).
`process_samples` is embedded as a state transformer that also returns
the list of blocks handed to `AudioOutput.write` that actually reach the
sink (`write` returns without writing when `audio.size == 0`) and the
list of events emitted on the channel's event bus during the call (the
method body contains no `emit` call, so this list is always empty). -/

/-- Mutable state of a `Channel` object (the `receiver`, `event_bus` and
`audio` collaborators carry no state relevant to processing; the audio
sink is modelled by the returned write list). -/
structure Channel where
  id : String
  frequency : ℝ
  squelch : SquelchGate
  tone : ToneDetector
  prev_phase : ℝ
  running : Bool

open Classical in
/-- `Channel.process_samples(iq)`: demodulate, update the squelch gate,
check the tone gate, and play audio.  Returns the new channel state, the
blocks written to the sink, and the events emitted (none: the method
never touches `self.event_bus`, and it does not consult
`self.running`). -/
noncomputable def Channel.process_samples (ch : Channel) (iq : List ℝ) :
    Channel × List (List ℝ) × List String :=
  let dm := fm_demodulate iq ch.prev_phase
  let audio := dm.1
  let ch1 := { ch with prev_phase := dm.2 }
  let squ := ch1.squelch.update audio
  let ch2 := { ch1 with squelch := squ.1 }
  if squ.2 = false then (ch2, [], [])
  else if ¬ ch2.tone.toneMatch audio then (ch2, [], [])
  else (ch2, if audio.length = 0 then [] else [audio], [])

/-! ## receiver.py : the rx-loop fan-out

The inner loop of `SDRReceiver._rx_loop` hands each IQ block to every
channel in turn, wrapping each `process_samples` call in
`try: ... except Exception: log.error(...)`, so a fault in one channel
neither stops delivery to the remaining channels of the same block nor
delivery of later blocks to any channel.  A channel's processing step is
modelled as a function from its state and a block to its new state plus a
fault flag (Python state mutated before a raise persists, and the raised
exception is swallowed by the `except` clause, which only logs). -/

/-- Fan-out of one block to every channel, `for ch in
list(self.channels.values()): try: await ch.process_samples(iq) except
Exception: log.error(...)`: every channel steps, fault flags are caught
and only logged. -/
def deliver_block {σ β : Type} (step : σ → β → σ × Bool) (chs : List σ) (b : β) :
    List σ :=
  chs.map fun s => (step s b).1

/-- The per-block fan-out of `_rx_loop` iterated over a list of delivered
blocks. -/
def rx_fanout {σ β : Type} (step : σ → β → σ × Bool) (chs : List σ) (blocks : List β) :
    List σ :=
  blocks.foldl (deliver_block step) chs

/-! ## rtl_tcp_client.py : read_iq

Connection-relevant state of an `RTL_TCP_Client` object: whether
`self.reader` is set (not `None`) and the `self.connected` flag.  The
socket is modelled by the byte stream still available to
`reader.readexactly` and a flag saying whether the read fails with
`ConnectionResetError`/`BrokenPipeError`; `readexactly` raises
`IncompleteReadError` when the stream ends before `size` bytes. -/

/-- Connection state of an `RTL_TCP_Client`. -/
structure RTL_TCP_Client where
  reader : Bool
  connected : Bool

/-- `RTL_TCP_Client.read_iq(size)`: returns `b""` when no reader is set;
on a reset/broken-pipe error or an incomplete read (EOF before `size`
bytes) it sets `connected = False` and returns `b""`; otherwise it
returns exactly `size` bytes.  No exception escapes. -/
def read_iq (c : RTL_TCP_Client) (stream : List ℕ) (size : ℕ) (reset : Bool) :
    List ℕ × RTL_TCP_Client :=
  if c.reader = false then ([], c)
  else if reset then ([], { c with connected := false })
  else if stream.length < size then ([], { c with connected := false })
  else (stream.take size, c)

/-- Freshly constructed client: `self.reader = None`,
`self.connected = False`. -/
def RTL_TCP_Client.init : RTL_TCP_Client := { reader := false, connected := false }

/-- `RTL_TCP_Client.connect`: on success `open_connection` sets the
reader and `connected = True`; on failure the reader is left as it was
and `connected = False`. -/
def RTL_TCP_Client.connect (c : RTL_TCP_Client) (ok : Bool) : RTL_TCP_Client :=
  if ok then { reader := true, connected := true } else { c with connected := false }

/-- `RTL_TCP_Client.close`: clears `connected` (the reader field is not
reset). -/
def RTL_TCP_Client.close (c : RTL_TCP_Client) : RTL_TCP_Client :=
  { c with connected := false }

/-! ## Claim C4 : command frame encoding

The general framing statement holds, but the concrete example in the
claim is arithmetically wrong: `146000000 = 0x08B3C880`, so the frame for
`SET_FREQUENCY(146000000)` is `[0x01, 0x08, 0xB3, 0xC8, 0x80]`, not
`[0x01, 0x08, 0xB2, 0xCE, 0x00]` (which would encode `145935872`). -/

/-- Claim C4, counterexample: the byte sequence given in the claim is not
the frame the client sends for `SET_FREQUENCY(146000000)`; the fourth
byte of `146000000` in big-endian order is `0xB3`, not `0xB2`. -/
theorem C4_counterexample :
    encode_cmd 0x01 146000000 ≠ some [0x01, 0x08, 0xB2, 0xCE, 0x00] := by
  decide

/-- Claim C4 (amended): for every opcode byte `c` and unsigned 32-bit
argument `v`, the command frame is exactly the 5 bytes consisting of `c`
followed by the big-endian bytes of `v` (each below 256, and decoding
them in big-endian order recovers `v`); in particular
`encode_cmd SET_FREQUENCY 146000000 = [0x01, 0x08, 0xB3, 0xC8, 0x80]`. -/
theorem C4_frame (c v : ℕ) (hc : c < 256) (hv : v < 2 ^ 32) :
    encode_cmd c v = some (c :: beBytes4 v) ∧
    (c :: beBytes4 v).length = 5 ∧
    (∀ b ∈ beBytes4 v, b < 256) ∧
    (beBytes4 v).foldl (fun a b => a * 256 + b) 0 = v ∧
    encode_cmd 0x01 146000000 = some [0x01, 0x08, 0xB3, 0xC8, 0x80] := by
  refine ⟨?_, rfl, ?_, ?_, by decide⟩
  · unfold encode_cmd
    rw [if_pos ⟨hc, hv⟩]
  · unfold beBytes4
    intro b hb
    simp only [List.mem_cons, List.not_mem_nil, or_false] at hb
    rcases hb with h | h | h | h <;> subst h <;> exact Nat.mod_lt _ (by norm_num)
  · unfold beBytes4
    simp only [List.foldl_cons, List.foldl_nil]
    omega

/-- Claim C4, witness: the amended framing theorem applied to the
`SET_FREQUENCY` opcode and the argument `146000000`. -/
theorem C4_frame_witness :
    encode_cmd 0x01 146000000 = some (0x01 :: beBytes4 146000000) ∧
    (0x01 :: beBytes4 146000000).length = 5 ∧
    (∀ b ∈ beBytes4 146000000, b < 256) ∧
    (beBytes4 146000000).foldl (fun a b => a * 256 + b) 0 = 146000000 ∧
    encode_cmd 0x01 146000000 = some [0x01, 0x08, 0xB3, 0xC8, 0x80] :=
  C4_frame 0x01 146000000 (by decide) (by decide)

/-! ## Claim C9 : at most one squelch transition per update call -/

/-- Claim C9: a single `SquelchGate.update` call makes at most one
transition: either the state is unchanged, or a closed gate opens (and
then the measured power exceeded the threshold), or an open gate closes
(and then the measured power was below threshold minus hysteresis); the
configuration fields are never touched. -/
theorem C9_single_transition (g : SquelchGate) (samples : List ℝ) :
    (g.update samples).1.threshold_db = g.threshold_db ∧
    (g.update samples).1.hysteresis_db = g.hysteresis_db ∧
    ((g.update samples).1.state_open = g.state_open ∨
      (g.state_open = false ∧ (g.update samples).1.state_open = true ∧
        measure_power samples > g.threshold_db) ∨
      (g.state_open = true ∧ (g.update samples).1.state_open = false ∧
        measure_power samples < g.threshold_db - g.hysteresis_db)) := by
  unfold SquelchGate.update
  by_cases h1 : g.state_open = false ∧ measure_power samples > g.threshold_db
  · rw [if_pos h1]
    exact ⟨rfl, rfl, Or.inr (Or.inl ⟨h1.1, rfl, h1.2⟩)⟩
  · rw [if_neg h1]
    by_cases h2 : g.state_open = true ∧
        measure_power samples < g.threshold_db - g.hysteresis_db
    · rw [if_pos h2]
      exact ⟨rfl, rfl, Or.inr (Or.inr ⟨h2.1, rfl, h2.2⟩)⟩
    · rw [if_neg h2]
      exact ⟨rfl, rfl, Or.inl rfl⟩

/-! ## Claim C7 : fan-out isolation in the acquisition loop -/

/-- Helper: one fan-out round over recording channels extends every
channel's received log by the delivered block, whatever the fault
flags. -/
theorem deliver_block_record {β : Type} (fault : List β → β → Bool)
    (chs : List (List β)) (b : β) :
    deliver_block (fun s x => (s ++ [x], fault s x)) chs b =
      chs.map (fun s => s ++ [b]) := by
  unfold deliver_block
  rfl

/-- Claim C7: in the `_rx_loop` fan-out, a fault raised by any channel on
any block is caught and does not affect delivery: instantiating the loop
with channels that record every block handed to them (and fault according
to an arbitrary predicate), every channel's record after the loop is the
full block sequence in arrival order — siblings of a faulting channel
still receive the faulting block, the faulting channel receives every
later block, and the loop never aborts (it is total and preserves the
channel list). -/
theorem C7_fanout_isolation {β : Type} (fault : List β → β → Bool)
    (chs : List (List β)) (blocks : List β) :
    rx_fanout (fun s x => (s ++ [x], fault s x)) chs blocks =
      chs.map (fun s => s ++ blocks) ∧
    ∀ (σ : Type) (step : σ → β → σ × Bool) (cs : List σ),
      (rx_fanout step cs blocks).length = cs.length := by
  constructor
  · induction blocks generalizing chs with
    | nil =>
      show chs = chs.map fun s => s ++ []
      simp
    | cons b bs ih =>
      show rx_fanout _ (deliver_block _ chs b) bs = _
      rw [deliver_block_record, ih, List.map_map]
      have hcomp : ((fun s => s ++ bs) ∘ fun s : List β => s ++ [b]) =
          fun s => s ++ b :: bs := by
        funext s
        simp
      rw [hcomp]
  · intro σ step cs
    induction blocks generalizing cs with
    | nil => rfl
    | cons b bs ih =>
      show (rx_fanout step (deliver_block step cs b) bs).length = _
      rw [ih, deliver_block, List.length_map]

/-! ## Claim C8 : read_iq returns exactly n bytes or flags the connection dead

The dichotomy holds on every state satisfying the class invariant that
`connected` is only set once `open_connection` has installed a reader
(`__init__` starts with neither; `connect` sets the reader before
`connected`; `close` only clears `connected`). -/

/-- Helper: the invariant "no reader implies not connected" holds
initially and is preserved by `connect`, `close` and `read_iq`. -/
theorem reader_invariant :
    (RTL_TCP_Client.init.reader = false → RTL_TCP_Client.init.connected = false) ∧
    (∀ (c : RTL_TCP_Client) (ok : Bool),
      (c.reader = false → c.connected = false) →
      ((c.connect ok).reader = false → (c.connect ok).connected = false)) ∧
    (∀ c : RTL_TCP_Client, (c.reader = false → c.connected = false) →
      (c.close.reader = false → c.close.connected = false)) ∧
    (∀ (c : RTL_TCP_Client) (stream : List ℕ) (n : ℕ) (reset : Bool),
      (c.reader = false → c.connected = false) →
      ((read_iq c stream n reset).2.reader = false →
        (read_iq c stream n reset).2.connected = false)) := by
  refine ⟨fun _ => rfl, ?_, ?_, ?_⟩
  · intro c ok h
    cases ok with
    | false => exact fun _ => rfl
    | true => intro hr; exact absurd hr (by simp [RTL_TCP_Client.connect])
  · intro c h _
    rfl
  · intro c stream n reset h
    unfold read_iq
    by_cases hr : c.reader = false
    · rw [if_pos hr]
      exact fun _ => h hr
    · rw [if_neg hr]
      by_cases hrs : reset
      · rw [if_pos hrs]; exact fun _ => rfl
      · rw [if_neg hrs]
        by_cases hs : stream.length < n
        · rw [if_pos hs]; exact fun _ => rfl
        · rw [if_neg hs]; exact h

/-- Claim C8: on every client state satisfying the class invariant, and
for every requested byte count, `read_iq` either returns exactly the
requested number of bytes with the client state unchanged, or returns an
empty result with `connected = false` afterwards; it is a total function
(no exception reaches the caller). -/
theorem C8_read_iq (c : RTL_TCP_Client) (stream : List ℕ) (n : ℕ) (reset : Bool)
    (hinv : c.reader = false → c.connected = false) :
    ((read_iq c stream n reset).1.length = n ∧ (read_iq c stream n reset).2 = c) ∨
    ((read_iq c stream n reset).1 = [] ∧
      (read_iq c stream n reset).2.connected = false) := by
  unfold read_iq
  by_cases hr : c.reader = false
  · rw [if_pos hr]
    exact Or.inr ⟨rfl, hinv hr⟩
  · rw [if_neg hr]
    by_cases hrs : reset
    · rw [if_pos hrs]; exact Or.inr ⟨rfl, rfl⟩
    · rw [if_neg hrs]
      by_cases hs : stream.length < n
      · rw [if_pos hs]; exact Or.inr ⟨rfl, rfl⟩
      · rw [if_neg hs]
        exact Or.inl ⟨List.length_take_of_le (Nat.le_of_not_lt hs), rfl⟩

/-- Claim C8, witness: a connected client with three buffered bytes asked
for two of them returns exactly two bytes and keeps its state. -/
theorem C8_read_iq_witness :
    ((read_iq ⟨true, true⟩ [7, 8, 9] 2 false).1.length = 2 ∧
      (read_iq ⟨true, true⟩ [7, 8, 9] 2 false).2 = ⟨true, true⟩) ∨
    ((read_iq ⟨true, true⟩ [7, 8, 9] 2 false).1 = [] ∧
      (read_iq ⟨true, true⟩ [7, 8, 9] 2 false).2.connected = false) :=
  C8_read_iq ⟨true, true⟩ [7, 8, 9] 2 false (fun h => nomatch h)

/-! ## Power measurement lemmas shared by C3 and C10 -/

/-- Constant block of 4 samples whose measured power is exactly `x` dBFS:
the sample value is `10 ^ (x / 20) - 1e-12`, compensating the epsilon
added inside `measure_power`. -/
noncomputable def dbBlock (x : ℝ) : List ℝ :=
  List.replicate 4 ((10 : ℝ) ^ (x / 20) - 1e-12)

/-- Helper: measured power of a constant nonnegative block. -/
theorem measure_power_replicate (n : ℕ) (hn : n ≠ 0) (c : ℝ) (hc : 0 ≤ c) :
    measure_power (List.replicate n c) = 20 * Real.logb 10 (c + 1e-12) := by
  unfold measure_power
  rw [if_neg (by simpa using hn)]
  rw [List.map_replicate, List.sum_replicate, nsmul_eq_mul, List.length_replicate]
  rw [mul_div_cancel_left₀ _ (by exact_mod_cast hn : (n : ℝ) ≠ 0), Real.sqrt_sq hc]

/-- Helper: the epsilon constant is the real number `10 ^ (-12)`. -/
theorem eps_eq_rpow : (1e-12 : ℝ) = (10 : ℝ) ^ ((-12 : ℝ)) := by
  rw [show ((-12 : ℝ)) = ((-12 : ℤ) : ℝ) by norm_num, Real.rpow_intCast]
  norm_num

/-- Helper: a `dbBlock x` block with `x > -240` measures exactly `x`
dBFS. -/
theorem measure_power_dbBlock (x : ℝ) (hx : -240 < x) :
    measure_power (dbBlock x) = x := by
  have heps : (1e-12 : ℝ) ≤ (10 : ℝ) ^ (x / 20) := by
    rw [eps_eq_rpow]
    exact (Real.rpow_le_rpow_left_iff (by norm_num)).mpr (by linarith)
  rw [dbBlock, measure_power_replicate 4 (by norm_num) _ (by linarith)]
  rw [sub_add_cancel, Real.logb_rpow (by norm_num) (by norm_num)]
  ring

/-! ## Claim C3 : squelch hysteresis -/

/-- The squelch gate as constructed for the concrete hysteresis scenario:
threshold `-45` dB, hysteresis `2` dB, initially closed. -/
noncomputable def squelchC3 : SquelchGate :=
  { threshold_db := -45, hysteresis_db := 2, state_open := false }

/-- The gate-state sequence produced by feeding a list of blocks to
successive `update` calls on one gate instance. -/
noncomputable def gateStates (g : SquelchGate) (blocks : List (List ℝ)) : List Bool :=
  (blocks.foldl
    (fun acc b =>
      let g2 := (acc.1.update b).1
      (g2, acc.2 ++ [g2.state_open]))
    (g, ([] : List Bool))).2

/-- Claim C3: a closed gate opens exactly when measured power exceeds the
threshold, an open gate closes exactly when measured power falls below
threshold minus hysteresis, and with threshold `-45` dB and hysteresis
`2` dB the blocks measuring `-50`, `-40`, `-44`, `-48` dB produce the
state sequence CLOSED, OPEN, OPEN, CLOSED. -/
theorem C3_hysteresis :
    (∀ (g : SquelchGate) (samples : List ℝ), g.state_open = false →
      ((g.update samples).1.state_open = true ↔
        measure_power samples > g.threshold_db)) ∧
    (∀ (g : SquelchGate) (samples : List ℝ), g.state_open = true →
      ((g.update samples).1.state_open = false ↔
        measure_power samples < g.threshold_db - g.hysteresis_db)) ∧
    gateStates squelchC3
        [dbBlock (-50), dbBlock (-40), dbBlock (-44), dbBlock (-48)] =
      [false, true, true, false] := by
  have hopen : ∀ (g : SquelchGate) (samples : List ℝ), g.state_open = false →
      ((g.update samples).1.state_open = true ↔
        measure_power samples > g.threshold_db) := by
    intro g samples hg
    unfold SquelchGate.update
    by_cases hp : measure_power samples > g.threshold_db
    · rw [if_pos ⟨hg, hp⟩]
      simpa using hp
    · rw [if_neg (by simp [hp]), if_neg (by simp [hg])]
      simpa [hg] using hp
  have hclose : ∀ (g : SquelchGate) (samples : List ℝ), g.state_open = true →
      ((g.update samples).1.state_open = false ↔
        measure_power samples < g.threshold_db - g.hysteresis_db) := by
    intro g samples hg
    unfold SquelchGate.update
    by_cases hp : measure_power samples < g.threshold_db - g.hysteresis_db
    · rw [if_neg (by simp [hg]), if_pos ⟨hg, hp⟩]
      simpa using hp
    · rw [if_neg (by simp [hg]), if_neg (by simp [hp]), hg]
      simpa using hp
  have m50 := measure_power_dbBlock (-50) (by norm_num)
  have m40 := measure_power_dbBlock (-40) (by norm_num)
  have m44 := measure_power_dbBlock (-44) (by norm_num)
  have m48 := measure_power_dbBlock (-48) (by norm_num)
  have h1 : (squelchC3.update (dbBlock (-50))).1 = squelchC3 := by
    unfold SquelchGate.update
    rw [m50, if_neg (by simp [squelchC3]; norm_num), if_neg (by simp [squelchC3])]
  have h2 : (squelchC3.update (dbBlock (-40))).1 =
      { squelchC3 with state_open := true } := by
    unfold SquelchGate.update
    rw [if_pos ⟨rfl, by rw [m40]; simp only [squelchC3]; norm_num⟩]
  have h3 : (({ squelchC3 with state_open := true} : SquelchGate).update
      (dbBlock (-44))).1 = { squelchC3 with state_open := true } := by
    unfold SquelchGate.update
    rw [m44, if_neg (by simp), if_neg (by simp [squelchC3]; norm_num)]
  have h4 : (({ squelchC3 with state_open := true} : SquelchGate).update
      (dbBlock (-48))).1 = squelchC3 := by
    unfold SquelchGate.update
    rw [m48, if_neg (by simp), if_pos ⟨rfl, by simp [squelchC3]; norm_num⟩]
    simp [squelchC3]
  refine ⟨hopen, hclose, ?_⟩
  unfold gateStates
  simp only [List.foldl_cons, List.foldl_nil]
  rw [h1, h2, h3, h4]
  rfl

/-- Claim C3, witness: the open-transition characterization applied to
the concrete closed gate and the `-40` dB block. -/
theorem C3_hysteresis_witness :
    (squelchC3.update (dbBlock (-40))).1.state_open = true ↔
      measure_power (dbBlock (-40)) > squelchC3.threshold_db :=
  C3_hysteresis.1 squelchC3 (dbBlock (-40)) rfl

/-! ## Claim C10 : measure_power is total and the empty block closes a gate -/

/-- Claim C10: `measure_power` of the empty block is exactly `-120.0`
dBFS; for every non-empty block the logarithm argument `rms + 1e-12` is
strictly positive; `fm_demodulate` of a block with fewer than 4 values
produces the empty audio block; and `update` on the empty audio block
closes an open gate whenever `threshold_db - hysteresis_db > -120`. -/
theorem C10_measure_power_total :
    measure_power [] = -120 ∧
    (∀ samples : List ℝ, samples ≠ [] →
      0 < Real.sqrt ((samples.map (fun x => x ^ 2)).sum / samples.length) + 1e-12) ∧
    (∀ (iq : List ℝ) (p : ℝ), iq.length < 4 → (fm_demodulate iq p).1 = []) ∧
    (∀ g : SquelchGate, g.state_open = true → -120 < g.threshold_db - g.hysteresis_db →
      (g.update []).1.state_open = false) := by
  refine ⟨rfl, ?_, ?_, ?_⟩
  · intro samples _
    have h := Real.sqrt_nonneg ((samples.map (fun x => x ^ 2)).sum / samples.length)
    linarith
  · intro iq p hlen
    unfold fm_demodulate
    rw [if_pos hlen]
  · intro g hg hband
    unfold SquelchGate.update
    have hm : measure_power [] = -120 := rfl
    rw [hm, if_neg (by simp [hg]), if_pos ⟨hg, by linarith⟩]

/-- Claim C10, witness: a one-value block (as produced from a 1-float IQ
buffer) yields empty audio, and the empty block closes the default open
gate with threshold `-45` dB and hysteresis `2` dB. -/
theorem C10_measure_power_total_witness :
    0 < Real.sqrt (((([1] : List ℝ)).map (fun x => x ^ 2)).sum /
        (([1] : List ℝ)).length) + 1e-12 ∧
    (fm_demodulate [1] 0).1 = [] ∧
    (SquelchGate.update { threshold_db := -45, hysteresis_db := 2, state_open := true }
        []).1.state_open = false :=
  ⟨C10_measure_power_total.2.1 [1] (by simp),
    C10_measure_power_total.2.2.1 [1] 0 (by norm_num),
    C10_measure_power_total.2.2.2
      { threshold_db := -45, hysteresis_db := 2, state_open := true } rfl (by norm_num)⟩

/-! ## Claim C1 : phase carry across block boundaries

The claim fails because the code never uses `prev_phase`: the parameter
is only echoed back for under-sized blocks, and `np.unwrap` is applied to
the current block's phase alone.  Consequently (a) demodulating a block
from the carried phase produces exactly the same audio as demodulating it
from phase zero, while the claim requires the two to differ in general,
and (b) per-block processing omits the boundary audio sample
`wrap(angle(B[0]) - angle(A[-1]))` that concatenated processing produces:
two 8-float (4-complex-sample) blocks give 3 + 3 audio samples, their
concatenation gives 7.  This contradicts the docstring of
`fm_demodulate`, which documents `prev_phase` as the "last phase value
from previous block" and the returned phase as kept "for continuity". -/

/-- First IQ block of the boundary scenario: interleaved floats for the
complex samples `1, i, -1, -i` (a carrier rotating by `pi/2` per
sample). -/
noncomputable def blkA : List ℝ := [1, 0, 0, 1, -1, 0, 0, -1]

/-- Second IQ block of the boundary scenario, continuing the same
rotation. -/
noncomputable def blkB : List ℝ := [1, 0, 0, 1, -1, 0, 0, -1]

/-- Helper: `np.diff` shortens a list by one. -/
theorem diffs_length : ∀ l : List ℝ, (diffs l).length = l.length - 1
  | [] => rfl
  | [_] => rfl
  | x :: y :: t => by
    show (diffs (y :: t)).length + 1 = (t.length + 2) - 1
    rw [diffs_length (y :: t)]
    simp

/-- Claim C1: the carried phase has no effect on the demodulated audio
(so carried-phase processing coincides with phase-reset processing,
contradicting the claim that only the former matches concatenated
processing), and per-block processing of two 4-sample blocks yields 6
audio samples where processing the concatenation yields 7 — the audio at
the block boundary is simply dropped, whatever phase is carried. -/
theorem C1_phase_carry_unused :
    (∀ (iq : List ℝ) (p q : ℝ), (fm_demodulate iq p).1 = (fm_demodulate iq q).1) ∧
    (fm_demodulate (blkA ++ blkB) 0).1.length = 7 ∧
    ((fm_demodulate blkA 0).1 ++
        (fm_demodulate blkB (fm_demodulate blkA 0).2).1).length = 6 := by
  refine ⟨?_, ?_, ?_⟩
  · intro iq p q
    unfold fm_demodulate
    by_cases h : iq.length < 4
    · rw [if_pos h, if_pos h]
    · rw [if_neg h, if_neg h]
  · unfold fm_demodulate
    rw [if_neg (by simp [blkA, blkB])]
    simp only [List.length_map, diffs_length]
    simp [blkA, blkB, deinterleave]
  · unfold fm_demodulate
    rw [if_neg (by simp [blkA]), if_neg (by simp [blkB])]
    simp only [List.length_append, List.length_map, diffs_length]
    simp [blkA, blkB, deinterleave]

/-! ## Claim C5 : process_samples on a stopped channel / too-small block

The claim fails on two points.  `process_samples` never reads
`self.running` (the flag is written by `start`/`stop` and read nowhere),
so a STOPPED channel processes blocks exactly like a RUNNING one.  And a
too-small block is not a complete no-op: the empty audio block it
produces is still fed to `SquelchGate.update`, whose measured power of
`-120` dBFS closes an open gate whenever the threshold band lies above
`-120`. -/

/-- A tone detector configured with no tone squelch (`tone_type=None`),
as built by `Channel.__init__` defaults. -/
noncomputable def toneNone : ToneDetector :=
  { tone_type := none, tone_value := none, sample_rate := 48000, threshold := 0.01 }

/-- A stopped channel (`running = False`) whose squelch gate is open,
with the constructor-default threshold `-50` dB and hysteresis `2`
dB. -/
noncomputable def chStopped : Channel :=
  { id := "ch_0", frequency := 146000000,
    squelch := { threshold_db := -50, hysteresis_db := 2, state_open := true },
    tone := toneNone, prev_phase := 0, running := false }

/-- Helper: a block of fewer than 4 values leaves the carried phase, the
tone detector, the run state and the sink untouched and emits nothing,
but still runs `SquelchGate.update` on the empty audio block. -/
theorem process_samples_small (ch : Channel) (iq : List ℝ) (h : iq.length < 4) :
    ch.process_samples iq = ({ ch with squelch := (ch.squelch.update []).1 }, [], []) := by
  have hd : fm_demodulate iq ch.prev_phase = ([], ch.prev_phase) := by
    unfold fm_demodulate
    rw [if_pos h]
  simp only [Channel.process_samples, hd]
  split_ifs with h1 h2 h3 <;> first | rfl | exact absurd rfl h3

/-- Claim C5, counterexample: a STOPPED channel with an open squelch gate
fed a 1-float block is not left unchanged — the call closes its squelch
gate (measured power of the empty demod output is `-120` dBFS, below
`-50 - 2`). -/
theorem C5_counterexample :
    chStopped.running = false ∧ chStopped.squelch.state_open = true ∧
      (chStopped.process_samples [1]).1.squelch.state_open = false := by
  refine ⟨rfl, rfl, ?_⟩
  rw [process_samples_small chStopped [1] (by norm_num)]
  show (chStopped.squelch.update []).1.state_open = false
  unfold SquelchGate.update
  have hm : measure_power [] = -120 := rfl
  rw [hm, if_neg (by simp [chStopped]), if_pos ⟨rfl, by simp [chStopped]; norm_num⟩]

/-- Claim C5 (amended): `process_samples` never consults the run state —
a STOPPED channel processes a block exactly like a RUNNING one — and on a
block of fewer than 4 values it writes nothing to the sink, emits
nothing, and leaves the carried phase, tone detector and run state
unchanged, but still updates the squelch gate with the empty audio block
(so an open gate whose threshold band lies above `-120` dBFS closes). -/
theorem C5_no_op_amended :
    (∀ (ch : Channel) (iq : List ℝ) (b : Bool),
      ({ ch with running := b } : Channel).process_samples iq =
        ({ (ch.process_samples iq).1 with running := b },
          (ch.process_samples iq).2.1, (ch.process_samples iq).2.2)) ∧
    (∀ (ch : Channel) (iq : List ℝ), iq.length < 4 →
      ch.process_samples iq = ({ ch with squelch := (ch.squelch.update []).1 }, [], [])) := by
  constructor
  · intro ch iq b
    simp only [Channel.process_samples]
    split_ifs <;> rfl
  · exact process_samples_small

/-- Claim C5, witness: the amended theorem applied to the concrete
stopped channel and the 1-float block. -/
theorem C5_no_op_amended_witness :
    ({ chStopped with running := true } : Channel).process_samples [1] =
      ({ (chStopped.process_samples [1]).1 with running := true },
        (chStopped.process_samples [1]).2.1, (chStopped.process_samples [1]).2.2) ∧
    chStopped.process_samples [1] =
      ({ chStopped with squelch := (chStopped.squelch.update []).1 }, [], []) :=
  ⟨C5_no_op_amended.1 chStopped [1] true,
    C5_no_op_amended.2 chStopped [1] (by norm_num)⟩

/-! ## Claim C2 : gate-transition notifications

The method body of `Channel.process_samples` contains no event emission
at all: `self.event_bus` is stored by the constructor and never used
anywhere in the class, although the spec demands an "opened"/"closed"
notification on every gate transition.  The scenario below drives a
channel through a CLOSED-to-OPEN gate transition (squelch opens, the
NoTone gate passes, audio is written to the sink) and shows the emitted
event list of the call is empty, where the claim requires exactly one
"opened" notification. -/

/-- A 16-float interleaved IQ block: the complex samples
`1, i, -1, -i, 1, i, -1, -i`, a carrier rotating by `pi/2` per sample,
which demodulates to a constant audio level of `pi/2`. -/
noncomputable def iqRot : List ℝ :=
  [1, 0, 0, 1, -1, 0, 0, -1, 1, 0, 0, 1, -1, 0, 0, -1]

/-- Helper: the phase list of the rotating block. -/
theorem phase_iqRot :
    (deinterleave iqRot).map Complex.arg =
      [0, π / 2, π, -(π / 2), 0, π / 2, π, -(π / 2)] := by
  simp [iqRot, deinterleave, Complex.arg_one, Complex.arg_I, Complex.arg_neg_one,
    Complex.arg_neg_I]

/-- Helper: the successive phase differences of the rotating block. -/
theorem diffs_phase_iqRot :
    diffs [0, π / 2, π, -(π / 2), 0, π / 2, π, -(π / 2)] =
      [π / 2, π / 2, -(3 * π / 2), π / 2, π / 2, π / 2, -(3 * π / 2)] := by
  simp only [diffs, List.cons.injEq, and_true]
  constructor
  · ring
  constructor
  · ring
  constructor
  · ring
  constructor
  · ring
  constructor
  · ring
  constructor
  · ring
  ring

/-- Helper: a difference of `pi/2` is below the unwrap discontinuity
threshold and passes through unchanged. -/
theorem unwrapDiff_pi_half : unwrapDiff (π / 2) = π / 2 := by
  unfold unwrapDiff
  rw [if_pos]
  rw [abs_of_nonneg (by positivity)]
  linarith [Real.pi_pos]

/-- Helper: the wrapped value of the `-3*pi/2` phase jump is `pi/2`. -/
theorem ddmod_neg_three_half : ddmod (-(3 * π / 2)) = π / 2 := by
  unfold ddmod
  have hdiv : (-(3 * π / 2) + π) / (2 * π) = -(1 / 4) := by
    rw [div_eq_iff (by positivity : (0:ℝ) < 2 * π).ne']
    ring
  rw [hdiv]
  have hfloor : ⌊(-(1 / 4) : ℝ)⌋ = -1 := by
    rw [Int.floor_eq_iff]
    constructor <;> norm_num
  rw [hfloor]
  push_cast
  ring

/-- Helper: the unwrap step maps the `-3*pi/2` jump to `pi/2`. -/
theorem unwrapDiff_neg_three_half : unwrapDiff (-(3 * π / 2)) = π / 2 := by
  unfold unwrapDiff
  rw [if_neg, if_neg]
  · exact ddmod_neg_three_half
  · intro hc
    have := hc.2
    nlinarith [Real.pi_pos]
  · rw [abs_of_nonpos (by nlinarith [Real.pi_pos])]
    intro hlt
    nlinarith [Real.pi_pos]

/-- Helper: values already inside the audio range pass `np.clip`
unchanged. -/
theorem npClip_pi_half : npClip (π / 2) (-π) π = π / 2 := by
  unfold npClip
  rw [max_eq_left (by linarith [Real.pi_pos]), min_eq_left (by linarith [Real.pi_pos])]

/-- Helper: full evaluation of the demodulator on the rotating block:
seven audio samples of `pi/2` and carried phase `-pi/2`. -/
theorem demod_iqRot : fm_demodulate iqRot 0 = (List.replicate 7 (π / 2), -(π / 2)) := by
  unfold fm_demodulate
  rw [if_neg (by simp [iqRot])]
  simp only [phase_iqRot, diffs_phase_iqRot, List.map_cons, List.map_nil,
    unwrapDiff_pi_half, unwrapDiff_neg_three_half, npClip_pi_half]
  rfl

/-- Helper: the NoTone detector passes every block. -/
theorem toneNone_match (audio : List ℝ) : toneNone.toneMatch audio := by
  unfold ToneDetector.toneMatch
  rw [if_neg (by simp [toneNone]), if_neg (by simp [toneNone])]
  trivial

/-- The channel of the notification scenario: running, squelch threshold
`-1` dB (closed), no tone squelch. -/
noncomputable def chC2 : Channel :=
  { id := "ch_0", frequency := 146000000,
    squelch := { threshold_db := -1, hysteresis_db := 2, state_open := false },
    tone := toneNone, prev_phase := 0, running := true }

/-- Helper: the demodulated audio of the rotating block measures above
the `-1` dB squelch threshold. -/
theorem power_iqRot : measure_power (List.replicate 7 (π / 2)) > -1 := by
  rw [measure_power_replicate 7 (by norm_num) (π / 2) (by positivity)]
  have h1 : (0:ℝ) ≤ Real.logb 10 (π / 2 + 1e-12) := by
    apply Real.logb_nonneg (by norm_num)
    have := Real.pi_gt_three
    norm_num
    linarith
  linarith

/-- Helper: the squelch gate of the scenario opens on the demodulated
audio and `update` returns `True`. -/
theorem squelch_opens_C2 :
    chC2.squelch.update (List.replicate 7 (π / 2)) =
      ({ threshold_db := -1, hysteresis_db := 2, state_open := true }, true) := by
  unfold SquelchGate.update
  rw [if_pos ⟨rfl, power_iqRot⟩]
  simp [chC2]

/-- Helper: the full evaluation of `process_samples` on the scenario:
the squelch gate opens, the audio is written to the sink, and the event
list is empty. -/
theorem process_samples_C2 :
    chC2.process_samples iqRot =
      ({ chC2 with
          prev_phase := -(π / 2),
          squelch := { threshold_db := -1, hysteresis_db := 2, state_open := true } },
        [List.replicate 7 (π / 2)], []) := by
  have hdm : fm_demodulate iqRot chC2.prev_phase = (List.replicate 7 (π / 2), -(π / 2)) :=
    demod_iqRot
  simp only [Channel.process_samples, hdm, squelch_opens_C2]
  have hto : ¬¬ chC2.tone.toneMatch (fm_demodulate iqRot chC2.prev_phase).1 :=
    not_not_intro (toneNone_match _)
  rw [if_neg (by simp), if_neg hto, if_neg (by simp [List.length_replicate])]

/-- Claim C2: the scenario call takes the gate (squelch open AND tone
match) from CLOSED to OPEN and writes the demodulated audio to the sink,
yet emits no notification at all — the claim's "exactly one opened
notification per CLOSED-to-OPEN transition" is violated because
`process_samples` contains no event emission. -/
theorem C2_no_notifications :
    chC2.squelch.state_open = false ∧
    (chC2.process_samples iqRot).1.squelch.state_open = true ∧
    chC2.tone.toneMatch (fm_demodulate iqRot chC2.prev_phase).1 ∧
    (chC2.process_samples iqRot).2.1 = [List.replicate 7 (π / 2)] ∧
    (chC2.process_samples iqRot).2.2 = [] := by
  refine ⟨rfl, ?_, ?_, ?_, ?_⟩
  · rw [process_samples_C2]
  · exact toneNone_match _
  · rw [process_samples_C2]
  · rw [process_samples_C2]

/-! ## Claim C6 : Goertzel tone detection

The claim's "sliding window maintained as a trailing ring buffer across
calls" fails on the code: `ToneDetector` never mutates any field, so no
sample history survives a call; `detect_ctcss` looks only at the trailing
`window = int(sample_rate * 0.5)` values of the block it is given and
returns `False` outright when that block is shorter than the window.  A
tone sustained for the full window duration but delivered across two
half-window calls is therefore never detected.  Within a single
window-length block the Goertzel detection behaves as claimed, which the
concrete instance below verifies exactly: sample rate 24 Hz, tone 4 Hz
(window 12, bin k = 2, `w = pi/3`, `coeff = 1`), unit amplitude.  The
12-sample sine at 4 Hz has Goertzel state `(-8s, -4s)` with `s =
sqrt(3)/2` and magnitude `sqrt(36) = 6 > 0.01`; the same sine at 8 Hz
drives the state to `(0, 0)` and magnitude `0`. -/

/-- A synthetic sine block: `n` samples of amplitude `A` at frequency `f`
Hz sampled at `fs` Hz. -/
noncomputable def sineBlock (A f fs : ℝ) (n : ℕ) : List ℝ :=
  (List.range n).map fun i : ℕ => A * Real.sin (2 * π * f * (i : ℝ) / fs)

/-- The analog-tone detector of the concrete Goertzel scenario:
`ToneDetector("PL", 4.0, sample_rate=24)` with the fixed threshold
`0.01`. -/
noncomputable def toneC6 : ToneDetector :=
  { tone_type := some "PL", tone_value := some 4, sample_rate := 24, threshold := 0.01 }

/-- Helper: the detection window of the scenario is 12 samples. -/
theorem windowC6 : pyInt (((24 : ℕ) : ℝ) * 0.5) = 12 := by
  unfold pyInt
  rw [if_pos (by norm_num)]
  rw [show (((24 : ℕ) : ℝ) * 0.5) = ((12 : ℤ) : ℝ) by push_cast; norm_num, Int.floor_intCast]

/-- Helper: the Goertzel bin of the scenario is `k = int(0.5 + 12 * 4 /
24) = 2`. -/
theorem kC6 : pyInt (0.5 + (((12 : ℤ) : ℝ) * 4 / ((24 : ℕ) : ℝ))) = 2 := by
  unfold pyInt
  rw [if_pos (by push_cast; norm_num)]
  rw [show (0.5 + (((12 : ℤ) : ℝ) * 4 / ((24 : ℕ) : ℝ))) = 5 / 2 by push_cast; norm_num]
  rw [Int.floor_eq_iff]
  constructor <;> push_cast <;> norm_num

/-- Helper: sine of the second third-circle angle. -/
theorem sin_pi_sub_third : Real.sin (π - π / 3) = Real.sqrt 3 / 2 := by
  rw [Real.sin_pi_sub]
  exact Real.sin_pi_div_three

/-- Helper: sine of the fourth third-circle angle. -/
theorem sin_third_add_pi : Real.sin (π / 3 + π) = -(Real.sqrt 3 / 2) := by
  rw [Real.sin_add, Real.cos_pi, Real.sin_pi, Real.sin_pi_div_three]
  ring

/-- Helper: the 12 samples of the unit sine at the configured 4 Hz tone
frequency. -/
theorem sineBlock_tone :
    sineBlock 1 4 24 12 =
      [0, Real.sqrt 3 / 2, Real.sqrt 3 / 2, 0, -(Real.sqrt 3 / 2), -(Real.sqrt 3 / 2),
        0, Real.sqrt 3 / 2, Real.sqrt 3 / 2, 0, -(Real.sqrt 3 / 2), -(Real.sqrt 3 / 2)] := by
  unfold sineBlock
  rw [show List.range 12 = [0, 1, 2, 3, 4, 5, 6, 7, 8, 9, 10, 11] from by decide]
  simp only [List.map_cons, List.map_nil, List.cons.injEq, and_true, one_mul]
  refine ⟨?_, ?_, ?_, ?_, ?_, ?_, ?_, ?_, ?_, ?_, ?_, ?_⟩ <;> push_cast
  · rw [show (2 * π * 4 * 0 / 24 : ℝ) = 0 by ring, Real.sin_zero]
  · rw [show (2 * π * 4 * 1 / 24 : ℝ) = π / 3 by ring, Real.sin_pi_div_three]
  · rw [show (2 * π * 4 * 2 / 24 : ℝ) = π - π / 3 by ring, sin_pi_sub_third]
  · rw [show (2 * π * 4 * 3 / 24 : ℝ) = π by ring, Real.sin_pi]
  · rw [show (2 * π * 4 * 4 / 24 : ℝ) = π / 3 + π by ring, sin_third_add_pi]
  · rw [show (2 * π * 4 * 5 / 24 : ℝ) = -(π / 3) + 2 * π by ring, Real.sin_add_two_pi,
      Real.sin_neg, Real.sin_pi_div_three]
  · rw [show (2 * π * 4 * 6 / 24 : ℝ) = 0 + 2 * π by ring, Real.sin_add_two_pi, Real.sin_zero]
  · rw [show (2 * π * 4 * 7 / 24 : ℝ) = π / 3 + 2 * π by ring, Real.sin_add_two_pi,
      Real.sin_pi_div_three]
  · rw [show (2 * π * 4 * 8 / 24 : ℝ) = (π - π / 3) + 2 * π by ring, Real.sin_add_two_pi,
      sin_pi_sub_third]
  · rw [show (2 * π * 4 * 9 / 24 : ℝ) = π + 2 * π by ring, Real.sin_add_two_pi, Real.sin_pi]
  · rw [show (2 * π * 4 * 10 / 24 : ℝ) = (π / 3 + π) + 2 * π by ring, Real.sin_add_two_pi,
      sin_third_add_pi]
  · rw [show (2 * π * 4 * 11 / 24 : ℝ) = (-(π / 3) + 2 * π) + 2 * π by ring,
      Real.sin_add_two_pi, Real.sin_add_two_pi, Real.sin_neg, Real.sin_pi_div_three]

/-- Helper: the 12 samples of the unit sine at twice the tone
frequency. -/
theorem sineBlock_double :
    sineBlock 1 8 24 12 =
      [0, Real.sqrt 3 / 2, -(Real.sqrt 3 / 2), 0, Real.sqrt 3 / 2, -(Real.sqrt 3 / 2),
        0, Real.sqrt 3 / 2, -(Real.sqrt 3 / 2), 0, Real.sqrt 3 / 2, -(Real.sqrt 3 / 2)] := by
  unfold sineBlock
  rw [show List.range 12 = [0, 1, 2, 3, 4, 5, 6, 7, 8, 9, 10, 11] from by decide]
  simp only [List.map_cons, List.map_nil, List.cons.injEq, and_true, one_mul]
  refine ⟨?_, ?_, ?_, ?_, ?_, ?_, ?_, ?_, ?_, ?_, ?_, ?_⟩ <;> push_cast
  · rw [show (2 * π * 8 * 0 / 24 : ℝ) = 0 by ring, Real.sin_zero]
  · rw [show (2 * π * 8 * 1 / 24 : ℝ) = π - π / 3 by ring, sin_pi_sub_third]
  · rw [show (2 * π * 8 * 2 / 24 : ℝ) = π / 3 + π by ring, sin_third_add_pi]
  · rw [show (2 * π * 8 * 3 / 24 : ℝ) = 0 + 2 * π by ring, Real.sin_add_two_pi, Real.sin_zero]
  · rw [show (2 * π * 8 * 4 / 24 : ℝ) = (π - π / 3) + 2 * π by ring, Real.sin_add_two_pi,
      sin_pi_sub_third]
  · rw [show (2 * π * 8 * 5 / 24 : ℝ) = (π / 3 + π) + 2 * π by ring, Real.sin_add_two_pi,
      sin_third_add_pi]
  · rw [show (2 * π * 8 * 6 / 24 : ℝ) = (0 + 2 * π) + 2 * π by ring, Real.sin_add_two_pi,
      Real.sin_add_two_pi, Real.sin_zero]
  · rw [show (2 * π * 8 * 7 / 24 : ℝ) = ((π - π / 3) + 2 * π) + 2 * π by ring,
      Real.sin_add_two_pi, Real.sin_add_two_pi, sin_pi_sub_third]
  · rw [show (2 * π * 8 * 8 / 24 : ℝ) = ((π / 3 + π) + 2 * π) + 2 * π by ring,
      Real.sin_add_two_pi, Real.sin_add_two_pi, sin_third_add_pi]
  · rw [show (2 * π * 8 * 9 / 24 : ℝ) = ((0 + 2 * π) + 2 * π) + 2 * π by ring,
      Real.sin_add_two_pi, Real.sin_add_two_pi, Real.sin_add_two_pi, Real.sin_zero]
  · rw [show (2 * π * 8 * 10 / 24 : ℝ) = (((π - π / 3) + 2 * π) + 2 * π) + 2 * π by ring,
      Real.sin_add_two_pi, Real.sin_add_two_pi, Real.sin_add_two_pi, sin_pi_sub_third]
  · rw [show (2 * π * 8 * 11 / 24 : ℝ) = (((π / 3 + π) + 2 * π) + 2 * π) + 2 * π by ring,
      Real.sin_add_two_pi, Real.sin_add_two_pi, Real.sin_add_two_pi, sin_third_add_pi]

/-- Helper: the Goertzel recurrence with `coeff = 1` over the on-tone
sample pattern ends in state `(-8s, -4s)` (for any sample scale `s`). -/
theorem goertzel_fold_tone (s : ℝ) :
    List.foldl (goertzelStep 1) (0, 0)
      [0, s, s, 0, -s, -s, 0, s, s, 0, -s, -s] = (-8 * s, -4 * s) := by
  simp only [List.foldl_cons, List.foldl_nil, goertzelStep, Prod.mk.injEq]
  constructor <;> ring

/-- Helper: the Goertzel recurrence with `coeff = 1` over the
doubled-frequency sample pattern ends in state `(0, 0)`. -/
theorem goertzel_fold_double (s : ℝ) :
    List.foldl (goertzelStep 1) (0, 0)
      [0, s, -s, 0, s, -s, 0, s, -s, 0, s, -s] = (0, 0) := by
  simp only [List.foldl_cons, List.foldl_nil, goertzelStep, Prod.mk.injEq]
  constructor <;> ring

/-- Helper: a PL-configured detector rejects every block shorter than its
detection window — there is no buffered history to complete it. -/
theorem toneMatch_short (t : ToneDetector) (audio : List ℝ) (hty : t.tone_type = some "PL")
    (hlen : (audio.length : ℤ) < pyInt ((t.sample_rate : ℝ) * 0.5)) :
    ¬ t.toneMatch audio := by
  unfold ToneDetector.toneMatch
  rw [if_pos hty]
  unfold ToneDetector.detect_ctcss
  by_cases h0 : audio.length = 0
  · rw [if_pos h0]
    exact not_false
  · rw [if_neg h0]
    cases htv : t.tone_value with
    | none => exact not_false
    | some tv =>
      have hc : ((audio.length : ℤ) < pyInt ((t.sample_rate : ℝ) * 0.5)) = True :=
        eq_true hlen
      simp only [hc, if_true]
      exact not_false

/-- Helper: the full-window on-tone sine is detected: the Goertzel
magnitude evaluates to 6, above the 0.01 threshold. -/
theorem detect_tone_true : toneC6.detect_ctcss (sineBlock 1 4 24 12) := by
  have hlen : (sineBlock 1 4 24 12).length = 12 := by simp [sineBlock]
  unfold ToneDetector.detect_ctcss toneC6
  simp only [hlen, windowC6]
  rw [if_neg (by norm_num), if_neg (by norm_num)]
  rw [show ((12 : ℤ).toNat : ℕ) = 12 from rfl, show (12 : ℕ) - 12 = 0 from rfl, List.drop_zero]
  rw [kC6]
  rw [show (2 * π / ((12 : ℤ) : ℝ)) * (((2 : ℤ)) : ℝ) = π / 3 by push_cast; ring]
  rw [Real.cos_pi_div_three]
  rw [show (2 * (1 / 2 : ℝ)) = 1 by norm_num]
  rw [sineBlock_tone, goertzel_fold_tone]
  have hs : (Real.sqrt 3 / 2) ^ 2 = 3 / 4 := by
    rw [div_pow, Real.sq_sqrt (by norm_num : (0:ℝ) ≤ 3)]
    norm_num
  have hE : ((-8 * (Real.sqrt 3 / 2)) ^ 2 + (-4 * (Real.sqrt 3 / 2)) ^ 2 -
      (-8 * (Real.sqrt 3 / 2)) * (-4 * (Real.sqrt 3 / 2)) * 1) = 36 := by
    nlinarith [hs]
  rw [hE]
  rw [show Real.sqrt 36 = 6 by
    rw [show (36 : ℝ) = 6 ^ 2 by norm_num, Real.sqrt_sq (by norm_num : (0:ℝ) ≤ 6)]]
  norm_num

/-- Helper: the doubled-frequency sine is rejected: the Goertzel
magnitude evaluates to 0. -/
theorem detect_double_false : ¬ toneC6.detect_ctcss (sineBlock 1 8 24 12) := by
  have hlen : (sineBlock 1 8 24 12).length = 12 := by simp [sineBlock]
  unfold ToneDetector.detect_ctcss toneC6
  simp only [hlen, windowC6]
  rw [if_neg (by norm_num), if_neg (by norm_num)]
  rw [show ((12 : ℤ).toNat : ℕ) = 12 from rfl, show (12 : ℕ) - 12 = 0 from rfl, List.drop_zero]
  rw [kC6]
  rw [show (2 * π / ((12 : ℤ) : ℝ)) * (((2 : ℤ)) : ℝ) = π / 3 by push_cast; ring]
  rw [Real.cos_pi_div_three]
  rw [show (2 * (1 / 2 : ℝ)) = 1 by norm_num]
  rw [sineBlock_double, goertzel_fold_double]
  intro h
  rw [show ((0 : ℝ) ^ 2 + (0 : ℝ) ^ 2 - (0 : ℝ) * 0 * 1) = 0 by ring, Real.sqrt_zero] at h
  norm_num at h

/-- Claim C6, counterexample: the 4 Hz unit sine sustained for the full
12-sample window duration but delivered as two consecutive 6-sample
`match` calls is rejected by both calls — no trailing ring buffer links
the calls, where the claim's cross-call sliding window would complete the
window on the second call and detect the tone. -/
theorem C6_counterexample :
    ((sineBlock 1 4 24 12).take 6).length = 6 ∧
    ((sineBlock 1 4 24 12).drop 6).length = 6 ∧
    ¬ toneC6.toneMatch ((sineBlock 1 4 24 12).take 6) ∧
    ¬ toneC6.toneMatch ((sineBlock 1 4 24 12).drop 6) := by
  have hwin : pyInt ((toneC6.sample_rate : ℝ) * 0.5) = 12 := windowC6
  have h1 : ((sineBlock 1 4 24 12).take 6).length = 6 := by simp [sineBlock]
  have h2 : ((sineBlock 1 4 24 12).drop 6).length = 6 := by simp [sineBlock]
  refine ⟨h1, h2, ?_, ?_⟩
  · exact toneMatch_short toneC6 _ rfl (by rw [h1, hwin]; norm_num)
  · exact toneMatch_short toneC6 _ rfl (by rw [h2, hwin]; norm_num)

/-- Claim C6 (amended): `match` keeps no buffer across calls — a
PL-configured detector rejects outright every block shorter than the
window `int(sample_rate * 0.5)`, whatever was processed before — and over
a single block containing the full window it passes exactly when the
Goertzel single-bin magnitude exceeds the fixed threshold: the
window-length unit sine at the configured tone frequency is detected,
while the same sine at twice that frequency is rejected. -/
theorem C6_goertzel_amended :
    (∀ (t : ToneDetector) (audio : List ℝ), t.tone_type = some "PL" →
      (audio.length : ℤ) < pyInt ((t.sample_rate : ℝ) * 0.5) → ¬ t.toneMatch audio) ∧
    toneC6.toneMatch (sineBlock 1 4 24 12) ∧
    ¬ toneC6.toneMatch (sineBlock 1 8 24 12) := by
  refine ⟨toneMatch_short, ?_, ?_⟩
  · unfold ToneDetector.toneMatch
    rw [if_pos (show toneC6.tone_type = some "PL" from rfl)]
    exact detect_tone_true
  · unfold ToneDetector.toneMatch
    rw [if_pos (show toneC6.tone_type = some "PL" from rfl)]
    exact detect_double_false

/-- Claim C6, witness: the no-buffer rejection applied to the concrete
detector and the first half-window block. -/
theorem C6_goertzel_amended_witness :
    ¬ toneC6.toneMatch ((sineBlock 1 4 24 12).take 6) :=
  C6_goertzel_amended.1 toneC6 ((sineBlock 1 4 24 12).take 6) rfl
    (by
      have hwin : pyInt ((toneC6.sample_rate : ℝ) * 0.5) = 12 := windowC6
      have h1 : ((sineBlock 1 4 24 12).take 6).length = 6 := by simp [sineBlock]
      rw [h1, hwin]
      norm_num)

end NedsSDR
